import Mathlib

/-
Formal model of the orbital-control simulator's propagation kernel
(Assets/Plugins/Source/Dopri54Physics.cpp, the active `extern "C"` block).

The C++ code works on IEEE doubles; this development embeds all scalar
arithmetic into the real numbers, so every identity proved here is the
exact real-arithmetic counterpart of the floating-point computation.
The static density tables are embedded as exact rational constant lists
(scientific literals denote exact rationals), read through total `getD`
accessors, matching C array indexing on the in-bounds indices the code
actually reaches.  The body list (`Vector3d *bodies` with parallel
`double *masses` and a count `n`) is modelled as a `List (Vector3d × ℝ)`.
-/

set_option maxHeartbeats 1000000

noncomputable section

/-- Three-component double-precision vector of the source (`struct Vector3d`). -/
@[ext]
structure Vector3d where
  x : ℝ
  y : ℝ
  z : ℝ

instance : Zero Vector3d := ⟨⟨0, 0, 0⟩⟩

instance : Add Vector3d := ⟨fun a b => ⟨a.x + b.x, a.y + b.y, a.z + b.z⟩⟩

instance : Sub Vector3d := ⟨fun a b => ⟨a.x - b.x, a.y - b.y, a.z - b.z⟩⟩

instance : SMul ℝ Vector3d := ⟨fun c v => ⟨c * v.x, c * v.y, c * v.z⟩⟩

/-- Euclidean magnitude of a `Vector3d`, as computed by the source's
`std::sqrt(v.x*v.x + v.y*v.y + v.z*v.z)` pattern. -/
def vmag (v : Vector3d) : ℝ := Real.sqrt (v.x ^ 2 + v.y ^ 2 + v.z ^ 2)

/-- Gravitational constant of the source: `const double G = 6.67430e-23`. -/
def G : ℝ := 6.67430e-23

/-- Singularity floor of the source: `const double minDistSq = 1e-20`. -/
def minDistSq : ℝ := 1e-20

/-- Force ceiling of the source: `const double maxForce = 1e8`. -/
def maxForce : ℝ := 1e8

/-- Unit conversion of the source: `const double UNIT_TO_KM = 10.0`. -/
def UNIT_TO_KM : ℝ := 10.0

/-- Earth radius of the source: `const double EARTH_RADIUS_KM = 637.8 * UNIT_TO_KM`. -/
def EARTH_RADIUS_KM : ℝ := 637.8 * UNIT_TO_KM

/-- Earth angular rate of the source: `const double OMEGA_EARTH = 7.2921150e-5`. -/
def OMEGA_EARTH : ℝ := 7.2921150e-5

/-- Density scale of the source: `const double DENSITY_SCALE = 1.0`. -/
def DENSITY_SCALE : ℝ := 1.0

/-- Table size of the source: `static const int JR_N = 51`. -/
def JR_N : ℕ := 51

/-- Altitude samples (km) of the active density table `JR_ALT`, the C array
embedded as a function from the index (out-of-range indices, never reached by
the code, default to 0). -/
def jrAlt : ℕ → ℝ
  | 0 => 0 | 1 => 10 | 2 => 20 | 3 => 30 | 4 => 40
  | 5 => 50 | 6 => 60 | 7 => 70 | 8 => 80 | 9 => 90
  | 10 => 100 | 11 => 110 | 12 => 120 | 13 => 130 | 14 => 140
  | 15 => 150 | 16 => 160 | 17 => 170 | 18 => 180 | 19 => 190
  | 20 => 200 | 21 => 210 | 22 => 220 | 23 => 230 | 24 => 240
  | 25 => 250 | 26 => 260 | 27 => 270 | 28 => 280 | 29 => 290
  | 30 => 300 | 31 => 310 | 32 => 320 | 33 => 330 | 34 => 340
  | 35 => 350 | 36 => 360 | 37 => 370 | 38 => 380 | 39 => 390
  | 40 => 400 | 41 => 410 | 42 => 420 | 43 => 430 | 44 => 440
  | 45 => 450 | 46 => 460 | 47 => 470 | 48 => 480 | 49 => 490
  | 50 => 500 | _ => 0

/-- Density samples of the active table `JR_RHO`, the C array embedded as a
function from the index (scientific literals denote exact rationals in ℝ). -/
def jrRho : ℕ → ℝ
  | 0 => 1.35e9 | 1 => 4.56e8 | 2 => 9.82e7 | 3 => 2.05e7 | 4 => 4.46e6
  | 5 => 1.15e6 | 6 => 3.48e5 | 7 => 9.11e4 | 8 => 2.06e4 | 9 => 3.81e3
  | 10 => 725.0 | 11 => 267.0 | 12 => 107.0 | 13 => 51.0 | 14 => 24.0
  | 15 => 1.95 | 16 => 1.15 | 17 => 0.68 | 18 => 0.40 | 19 => 0.24
  | 20 => 0.135 | 21 => 0.090 | 22 => 0.056 | 23 => 0.035 | 24 => 0.022
  | 25 => 0.187 | 26 => 0.1459 | 27 => 0.1136 | 28 => 0.0885 | 29 => 0.0689
  | 30 => 0.0537 | 31 => 0.0418 | 32 => 0.0326 | 33 => 0.0254 | 34 => 0.0198
  | 35 => 0.0154 | 36 => 0.0120 | 37 => 0.00938 | 38 => 0.0073 | 39 => 0.00568
  | 40 => 0.00487 | 41 => 0.00378 | 42 => 0.00292 | 43 => 0.00232 | 44 => 0.00197
  | 45 => 0.00168 | 46 => 0.00138 | 47 => 0.00106 | 48 => 0.000803 | 49 => 0.000622
  | 50 => 0.000485 | _ => 0

/-- Per-segment scale height computed by the static initializer `JRInit`:
`JR_H[i] = -(JR_ALT[i+1] - JR_ALT[i]) / std::log(JR_RHO[i+1] / JR_RHO[i])`,
computed unconditionally for every `i < JR_N - 1` with no validation. -/
def jrH (i : ℕ) : ℝ :=
  -(jrAlt (i + 1) - jrAlt i) / Real.log (jrRho (i + 1) / jrRho i)

/-- `ComputeAtmosphericDensity(double altKm)` of the source: clamp below the
table floor, vacuum at and above the ceiling, otherwise exponential
interpolation within the band `idx = min(int(altKm / 10.0), JR_N - 2)`
(the `int` cast truncates; on the positive reachable range this is the floor). -/
def ComputeAtmosphericDensity (altKm : ℝ) : ℝ :=
  if altKm ≤ jrAlt 0 then jrRho 0
  else if jrAlt (JR_N - 1) ≤ altKm then 0
  else
    jrRho (min (⌊altKm / 10⌋).toNat (JR_N - 2)) *
      Real.exp (-(altKm - jrAlt (min (⌊altKm / 10⌋).toNat (JR_N - 2))) /
        jrH (min (⌊altKm / 10⌋).toNat (JR_N - 2))) * DENSITY_SCALE

/-- Altitude used by `ComputeDragAcceleration`: convert the primary-relative
position to km, take its magnitude, subtract the Earth radius, clamp at 0. -/
def dragAlt (posRelUU : Vector3d) : ℝ :=
  max 0 (Real.sqrt ((posRelUU.x * UNIT_TO_KM) ^ 2 + (posRelUU.y * UNIT_TO_KM) ^ 2 +
    (posRelUU.z * UNIT_TO_KM) ^ 2) - EARTH_RADIUS_KM)

/-- Relative wind of `ComputeDragAcceleration`: velocity in km units minus the
atmosphere's rigid co-rotation `(-ω·ykm, ω·xkm, 0)`. -/
def vrelOf (velUU posRelUU : Vector3d) : Vector3d :=
  (⟨velUU.x * UNIT_TO_KM, velUU.y * UNIT_TO_KM, velUU.z * UNIT_TO_KM⟩ : Vector3d) -
    ⟨-OMEGA_EARTH * (posRelUU.y * UNIT_TO_KM), OMEGA_EARTH * (posRelUU.x * UNIT_TO_KM), 0⟩

/-- `ComputeDragAcceleration` of the source: quadratic drag against the
relative wind, short-circuiting on negligible density or negligible speed. -/
def ComputeDragAcceleration (velUU posRelUU : Vector3d) (mass areaUU Cd : ℝ) : Vector3d :=
  if ComputeAtmosphericDensity (dragAlt posRelUU) < 1e-12 then 0
  else if vmag (vrelOf velUU posRelUU) < 1e-6 then 0
  else
    ⟨-0.5 * Cd * (areaUU * UNIT_TO_KM * UNIT_TO_KM) *
        ComputeAtmosphericDensity (dragAlt posRelUU) / mass *
        (vrelOf velUU posRelUU).x * vmag (vrelOf velUU posRelUU) / UNIT_TO_KM,
     -0.5 * Cd * (areaUU * UNIT_TO_KM * UNIT_TO_KM) *
        ComputeAtmosphericDensity (dragAlt posRelUU) / mass *
        (vrelOf velUU posRelUU).y * vmag (vrelOf velUU posRelUU) / UNIT_TO_KM,
     -0.5 * Cd * (areaUU * UNIT_TO_KM * UNIT_TO_KM) *
        ComputeAtmosphericDensity (dragAlt posRelUU) / mass *
        (vrelOf velUU posRelUU).z * vmag (vrelOf velUU posRelUU) / UNIT_TO_KM⟩

/-- Velocity-independent coefficient of the drag law, so that the drag
acceleration magnitude is this coefficient times the squared relative wind
speed (used to state the quadratic-scaling property). -/
def dragK (posRelUU : Vector3d) (mass areaUU Cd : ℝ) : ℝ :=
  0.5 * Cd * (areaUU * UNIT_TO_KM * UNIT_TO_KM) *
    ComputeAtmosphericDensity (dragAlt posRelUU) / mass / UNIT_TO_KM

/-- Displacement `d = bodies[i] - pos` of the gravity loop. -/
def dvec (pos bpos : Vector3d) : Vector3d :=
  ⟨bpos.x - pos.x, bpos.y - pos.y, bpos.z - pos.z⟩

/-- Squared separation `r2 = d.x*d.x + d.y*d.y + d.z*d.z` of the gravity loop. -/
def dist2 (pos bpos : Vector3d) : ℝ :=
  (dvec pos bpos).x ^ 2 + (dvec pos bpos).y ^ 2 + (dvec pos bpos).z ^ 2

/-- One iteration of the `ComputeAcceleration` loop: skip the body when
`r2 < minDistSq`, otherwise accumulate `(min(G*mass/r2, maxForce) / sqrt r2) • d`. -/
def accelContrib (pos : Vector3d) (b : Vector3d × ℝ) : Vector3d :=
  if dist2 pos b.1 < minDistSq then 0
  else (min (G * b.2 / dist2 pos b.1) maxForce / Real.sqrt (dist2 pos b.1)) • dvec pos b.1

/-- `ComputeAcceleration(pos, masses, bodies, n)` of the source: left-to-right
accumulation of the per-body contributions starting from the zero vector. -/
def ComputeAcceleration (pos : Vector3d) (bodies : List (Vector3d × ℝ)) : Vector3d :=
  bodies.foldl (fun a b => a + accelContrib pos b) 0

/-- Spec-side description of the gravity model (spec 4.2): the sum over the
body list of the per-body contributions.  Compared against the source's
accumulating loop in the C2 theorem. -/
def gravitySum (pos : Vector3d) : List (Vector3d × ℝ) → Vector3d
  | [] => 0
  | b :: rest => accelContrib pos b + gravitySum pos rest

/-- Lower-triangular Dormand-Prince coefficient table `a_dp[7][6]` of the
source, rows zero-filled exactly as the C aggregate initializer does. -/
def a_dp : ℕ → ℕ → ℝ
  | 1, 0 => 1 / 5
  | 2, 0 => 3 / 40
  | 2, 1 => 9 / 40
  | 3, 0 => 44 / 45
  | 3, 1 => -56 / 15
  | 3, 2 => 32 / 9
  | 4, 0 => 19372 / 6561
  | 4, 1 => -25360 / 2187
  | 4, 2 => 64448 / 6561
  | 4, 3 => -212 / 729
  | 5, 0 => 9017 / 3168
  | 5, 1 => -355 / 33
  | 5, 2 => 46732 / 5247
  | 5, 3 => 49 / 176
  | 5, 4 => -5103 / 18656
  | 6, 0 => 35 / 384
  | 6, 2 => 500 / 1113
  | 6, 3 => 125 / 192
  | 6, 4 => -2187 / 6784
  | 6, 5 => 11 / 84
  | _, _ => 0

/-- Fifth-order weight vector `b_dp[7]` of the source. -/
def b_dp : ℕ → ℝ
  | 0 => 35 / 384
  | 2 => 500 / 1113
  | 3 => 125 / 192
  | 4 => -2187 / 6784
  | 5 => 11 / 84
  | _ => 0

/-- Node vector `c_dp[7]` of the source. -/
def c_dp : ℕ → ℝ
  | 1 => 1 / 5
  | 2 => 3 / 10
  | 3 => 4 / 5
  | 4 => 8 / 9
  | 5 => 1
  | 6 => 1
  | _ => 0

/-- Acceleration evaluated at one stage state of `DormandPrinceStep`: gravity
plus thrust plus drag, the drag taking the position relative to `bodies[0]`
(the assumed primary; the unguarded C read of `bodies[0]` is modelled totally
by `headD`, and its partiality is treated by `DormandPrinceStepChecked`). -/
def dpDeriv (bodies : List (Vector3d × ℝ)) (mass areaUU dragCoeff : ℝ)
    (thrustAcc p v : Vector3d) : Vector3d :=
  ComputeAcceleration p bodies + thrustAcc +
    ComputeDragAcceleration v (p - (bodies.headD (⟨0, 0, 0⟩, 0)).1) mass areaUU dragCoeff

/-- One stage extension of the Dormand-Prince loop.  Given the stages computed
so far (`prev`, in order), produce stage `i = prev.length`: stage 0 uses the
incoming state, later stages use the intermediate state accumulated from
`dt * a_dp[i][j]` times the earlier stage derivatives, exactly as the source's
inner loop over `j < i`. -/
def dpNext (bodies : List (Vector3d × ℝ)) (mass dt areaUU dragCoeff : ℝ)
    (thrustAcc pos vel : Vector3d) (prev : List (Vector3d × Vector3d)) :
    Vector3d × Vector3d :=
  match prev with
  | [] => (vel, dpDeriv bodies mass areaUU dragCoeff thrustAcc pos vel)
  | _ :: _ =>
    let i := prev.length
    let pStage := (List.range i).foldl
      (fun acc j => acc + (dt * a_dp i j) • (prev.getD j ((0 : Vector3d), (0 : Vector3d))).1) pos
    let vStage := (List.range i).foldl
      (fun acc j => acc + (dt * a_dp i j) • (prev.getD j ((0 : Vector3d), (0 : Vector3d))).2) vel
    (vStage, dpDeriv bodies mass areaUU dragCoeff thrustAcc pStage vStage)

/-- The first `n` stages `(kx[i], kv[i])` of `DormandPrinceStep`, in order. -/
def dpStages (bodies : List (Vector3d × ℝ)) (mass dt areaUU dragCoeff : ℝ)
    (thrustAcc pos vel : Vector3d) : ℕ → List (Vector3d × Vector3d)
  | 0 => []
  | n + 1 =>
    dpStages bodies mass dt areaUU dragCoeff thrustAcc pos vel n ++
      [dpNext bodies mass dt areaUU dragCoeff thrustAcc pos vel
        (dpStages bodies mass dt areaUU dragCoeff thrustAcc pos vel n)]

/-- `DormandPrinceStep` of the source: no-op when `mass <= 1e-6`, otherwise
seven stages followed by the 5th-order combination
`pos += dt * b_dp[i] * kx[i]`, `vel += dt * b_dp[i] * kv[i]`. -/
def DormandPrinceStep (pos vel : Vector3d) (mass dt : ℝ)
    (bodies : List (Vector3d × ℝ)) (thrustAcc : Vector3d) (dragCoeff areaUU : ℝ) :
    Vector3d × Vector3d :=
  if mass ≤ 1e-6 then (pos, vel)
  else
    ((List.range 7).foldl
      (fun acc i => acc + (dt * b_dp i) •
        ((dpStages bodies mass dt areaUU dragCoeff thrustAcc pos vel 7).getD i
          ((0 : Vector3d), (0 : Vector3d))).1) pos,
     (List.range 7).foldl
      (fun acc i => acc + (dt * b_dp i) •
        ((dpStages bodies mass dt areaUU dragCoeff thrustAcc pos vel 7).getD i
          ((0 : Vector3d), (0 : Vector3d))).2) vel)

/-- Guarded (total) rendering of `DormandPrinceStep`.  The source reads
`bodies[0]` unconditionally whenever the mass guard passes; with `n = 0` that
read is out of bounds, so the total embedding returns `none` there and agrees
with `DormandPrinceStep` everywhere else. -/
def DormandPrinceStepChecked (pos vel : Vector3d) (mass dt : ℝ)
    (bodies : List (Vector3d × ℝ)) (thrustAcc : Vector3d) (dragCoeff areaUU : ℝ) :
    Option (Vector3d × Vector3d) :=
  if mass ≤ 1e-6 then some (pos, vel)
  else
    match bodies with
    | [] => none
    | _ :: _ => some (DormandPrinceStep pos vel mass dt bodies thrustAcc dragCoeff areaUU)

/-- `DormandPrinceSingle` of the source, the C entry point: early-return when
`mass <= 1e-6`, otherwise convert the thrust impulse to an acceleration by
dividing by the mass and run the step.  The float-to-double marshalling is the
identity in the real-valued model, and the body list stands for the converted
`bodiesD`/`massesD` arrays. -/
def DormandPrinceSingle (position velocity : Vector3d) (mass : ℝ)
    (bodies : List (Vector3d × ℝ)) (dt : ℝ) (thrustImpulse : Vector3d)
    (dragCoeff areaUU : ℝ) : Vector3d × Vector3d :=
  if mass ≤ 1e-6 then (position, velocity)
  else
    DormandPrinceStep position velocity mass dt bodies
      ⟨thrustImpulse.x / mass, thrustImpulse.y / mass, thrustImpulse.z / mass⟩
      dragCoeff areaUU

/-! Helper lemmas about the vector operations and the embedded tables. -/

@[simp] theorem Vector3d.zero_x : (0 : Vector3d).x = 0 := rfl

@[simp] theorem Vector3d.zero_y : (0 : Vector3d).y = 0 := rfl

@[simp] theorem Vector3d.zero_z : (0 : Vector3d).z = 0 := rfl

@[simp] theorem Vector3d.add_x (a b : Vector3d) : (a + b).x = a.x + b.x := rfl

@[simp] theorem Vector3d.add_y (a b : Vector3d) : (a + b).y = a.y + b.y := rfl

@[simp] theorem Vector3d.add_z (a b : Vector3d) : (a + b).z = a.z + b.z := rfl

@[simp] theorem Vector3d.sub_x (a b : Vector3d) : (a - b).x = a.x - b.x := rfl

@[simp] theorem Vector3d.sub_y (a b : Vector3d) : (a - b).y = a.y - b.y := rfl

@[simp] theorem Vector3d.sub_z (a b : Vector3d) : (a - b).z = a.z - b.z := rfl

@[simp] theorem Vector3d.smul_x (c : ℝ) (v : Vector3d) : (c • v).x = c * v.x := rfl

@[simp] theorem Vector3d.smul_y (c : ℝ) (v : Vector3d) : (c • v).y = c * v.y := rfl

@[simp] theorem Vector3d.smul_z (c : ℝ) (v : Vector3d) : (c • v).z = c * v.z := rfl

theorem Vector3d.add_zero (v : Vector3d) : v + 0 = v := by
  ext <;> simp

theorem Vector3d.zero_add (v : Vector3d) : 0 + v = v := by
  ext <;> simp

theorem Vector3d.smul_zero (c : ℝ) : c • (0 : Vector3d) = 0 := by
  ext <;> simp

theorem Vector3d.add_assoc (a b c : Vector3d) : a + b + c = a + (b + c) := by
  ext <;> simp <;> ring

theorem vmag_smul (c : ℝ) (v : Vector3d) : vmag (c • v) = |c| * vmag v := by
  unfold vmag
  have h : (c • v).x ^ 2 + (c • v).y ^ 2 + (c • v).z ^ 2
      = c ^ 2 * (v.x ^ 2 + v.y ^ 2 + v.z ^ 2) := by
    simp; ring
  rw [h, Real.sqrt_mul (sq_nonneg c), Real.sqrt_sq_eq_abs]

theorem jrAlt_eq (i : ℕ) (h : i < 51) : jrAlt i = 10 * i := by
  interval_cases i <;> norm_num [jrAlt]

theorem jrRho_pos (i : ℕ) (h : i < 51) : 0 < jrRho i := by
  interval_cases i <;> norm_num [jrRho]

theorem jrRho_strict_anti_off (i : ℕ) (h : i < 50) (hne : i ≠ 24) :
    jrRho (i + 1) < jrRho i := by
  interval_cases i <;> simp_all <;> norm_num [jrRho]

/-- Evaluation of the density interpolation at an interior table sample: the
band index is exactly `i`, the offset `dH` vanishes, and the exponential
collapses to 1. -/
theorem density_at_sample (i : ℕ) (h1 : 1 ≤ i) (h2 : i ≤ 49) :
    ComputeAtmosphericDensity (10 * i) = jrRho i := by
  have hipos : (0 : ℝ) < 10 * i := by
    have : (0 : ℝ) < i := by exact_mod_cast h1
    linarith
  have hile : (i : ℝ) ≤ 49 := by exact_mod_cast h2
  have halt0 : jrAlt 0 = 0 := rfl
  have haltTop : jrAlt (JR_N - 1) = 500 := rfl
  have hscale : DENSITY_SCALE = 1 := by norm_num [DENSITY_SCALE]
  unfold ComputeAtmosphericDensity
  rw [if_neg (by rw [halt0]; linarith),
    if_neg (by rw [haltTop]; intro hcon; linarith)]
  have hfl : (⌊(10 * (i : ℝ)) / 10⌋).toNat = i := by
    have h10 : (10 * (i : ℝ)) / 10 = (i : ℝ) := by ring
    rw [h10, Int.floor_natCast]
    exact Int.toNat_natCast i
  have hmin : min (⌊(10 * (i : ℝ)) / 10⌋).toNat (JR_N - 2) = i := by
    have h49 : JR_N - 2 = 49 := rfl
    rw [hfl, h49]
    exact min_eq_left h2
  rw [hmin, jrAlt_eq i (by omega), sub_self, neg_zero, zero_div, Real.exp_zero,
    mul_one, hscale, mul_one]

/-- The accumulating gravity loop equals the initial accumulator plus the
sum of the per-body contributions. -/
theorem gravity_foldl (pos : Vector3d) :
    ∀ (l : List (Vector3d × ℝ)) (a : Vector3d),
      l.foldl (fun a b => a + accelContrib pos b) a = a + gravitySum pos l := by
  intro l
  induction l with
  | nil => intro a; exact (Vector3d.add_zero a).symm
  | cons b t ih =>
    intro a
    calc (b :: t).foldl (fun a b => a + accelContrib pos b) a
        = t.foldl (fun a b => a + accelContrib pos b) (a + accelContrib pos b) := rfl
      _ = a + accelContrib pos b + gravitySum pos t := ih _
      _ = a + (accelContrib pos b + gravitySum pos t) := Vector3d.add_assoc _ _ _

/-- Per-segment scale heights are positive wherever the density table is
strictly decreasing (every segment except the one starting at index 24). -/
theorem jrH_pos_off (i : ℕ) (h : i < 50) (hne : i ≠ 24) : 0 < jrH i := by
  have hd : jrAlt (i + 1) - jrAlt i = 10 := by
    rw [jrAlt_eq (i + 1) (by omega), jrAlt_eq i (by omega)]
    push_cast
    ring
  have hr0 : 0 < jrRho i := jrRho_pos i (by omega)
  have hr1 : 0 < jrRho (i + 1) := jrRho_pos (i + 1) (by omega)
  have hlt : jrRho (i + 1) < jrRho i := jrRho_strict_anti_off i h hne
  have hlog : Real.log (jrRho (i + 1) / jrRho i) < 0 :=
    Real.log_neg (div_pos hr1 hr0) ((div_lt_one hr0).mpr hlt)
  unfold jrH
  rw [hd]
  exact div_pos_iff.mpr (Or.inr ⟨by norm_num, hlog⟩)

/-- The scale height of the 240→250 km segment is negative, because there the
density sequence increases. -/
theorem jrH_neg_24 : jrH 24 < 0 := by
  have h2425 : (24 : ℕ) + 1 = 25 := rfl
  have hd : jrAlt 25 - jrAlt 24 = 10 := by norm_num [jrAlt]
  have hratio : 1 < jrRho 25 / jrRho 24 := by norm_num [jrRho]
  have hlog : 0 < Real.log (jrRho 25 / jrRho 24) := Real.log_pos hratio
  unfold jrH
  rw [h2425, hd]
  exact div_neg_of_neg_of_pos (by norm_num) hlog

/-- Drag vanishes identically when the cross-sectional area is zero: either a
short-circuit guard fires, or the factor carries the zero area. -/
theorem drag_zero_area (v p : Vector3d) (m Cd : ℝ) :
    ComputeDragAcceleration v p m 0 Cd = 0 := by
  unfold ComputeDragAcceleration
  split_ifs with h1 h2
  · rfl
  · rfl
  · ext <;> simp

/-- With no bodies, zero thrust and zero area, every stage derivative of the
velocity is the zero vector. -/
theorem dpDeriv_free (mass dragCoeff : ℝ) (p v : Vector3d) :
    dpDeriv [] mass 0 dragCoeff ⟨0, 0, 0⟩ p v = 0 := by
  have hca : ComputeAcceleration p [] = 0 := rfl
  unfold dpDeriv
  rw [drag_zero_area, hca]
  ext <;> simp

/-- Reading any index of a replicated `(vel, 0)` stage list yields a second
component of zero (the default also has second component zero). -/
theorem getD_snd_zero (vel : Vector3d) :
    ∀ (k j : ℕ),
      ((List.replicate k (vel, (0 : Vector3d))).getD j ((0 : Vector3d), (0 : Vector3d))).2 = 0 := by
  intro k
  induction k with
  | zero => intro j; cases j <;> rfl
  | succ k ih =>
    intro j
    cases j with
    | zero => rfl
    | succ j => exact ih j

/-- Folding an accumulator through additions of vanishing terms is the identity. -/
theorem foldl_add_zero {α : Type} (g : α → Vector3d) (h : ∀ x, g x = 0) :
    ∀ (l : List α) (acc : Vector3d), l.foldl (fun acc x => acc + g x) acc = acc := by
  intro l
  induction l with
  | nil => intro acc; rfl
  | cons a t ih =>
    intro acc
    have hstep : (a :: t).foldl (fun acc x => acc + g x) acc
        = t.foldl (fun acc x => acc + g x) (acc + g a) := rfl
    rw [hstep, ih, h a, Vector3d.add_zero]

/-- In the free configuration (no bodies, zero thrust, zero area) every stage
is `(vel, 0)`: the velocity never changes and all accelerations vanish. -/
theorem dpStages_free (mass dt dragCoeff : ℝ) (pos vel : Vector3d) :
    ∀ n : ℕ, dpStages [] mass dt 0 dragCoeff ⟨0, 0, 0⟩ pos vel n
      = List.replicate n (vel, (0 : Vector3d)) := by
  intro n
  induction n with
  | zero => rfl
  | succ n ih =>
    have hnext : dpNext [] mass dt 0 dragCoeff ⟨0, 0, 0⟩ pos vel
        (List.replicate n (vel, (0 : Vector3d))) = (vel, 0) := by
      cases n with
      | zero =>
        show (vel, dpDeriv [] mass 0 dragCoeff ⟨0, 0, 0⟩ pos vel) = (vel, 0)
        rw [dpDeriv_free]
      | succ m =>
        rw [List.replicate_succ]
        have hz : ∀ j : ℕ,
            (dt * a_dp ((vel, (0 : Vector3d)) :: List.replicate m (vel, (0 : Vector3d))).length j) •
              (((vel, (0 : Vector3d)) :: List.replicate m (vel, (0 : Vector3d))).getD j
                ((0 : Vector3d), (0 : Vector3d))).2 = 0 := by
          intro j
          have hrepl : (vel, (0 : Vector3d)) :: List.replicate m (vel, (0 : Vector3d))
              = List.replicate (m + 1) (vel, (0 : Vector3d)) := (List.replicate_succ _ _).symm
          rw [hrepl, getD_snd_zero vel (m + 1) j, Vector3d.smul_zero]
        unfold dpNext
        dsimp only
        rw [foldl_add_zero _ hz, dpDeriv_free]
    rw [dpStages, ih, hnext]
    exact (List.replicate_succ' _ _).symm

/-! Theorems for the claims. -/

/-- C2 counterexample: the per-attractor force-magnitude bound fails for a
negative mass: with a single body of mass -1e31 at unit distance the
accumulated acceleration has magnitude 6.6743e8, exceeding maxForce = 1e8
(the clamp `min(G*mass/r2, maxForce)` only bounds the force from above). -/
theorem c2_gravity_counterexample :
    maxForce < vmag (ComputeAcceleration ⟨0, 0, 0⟩ [(⟨1, 0, 0⟩, -1e31)]) := by
  have hr2 : dist2 ⟨0, 0, 0⟩ ⟨1, 0, 0⟩ = 1 := by
    unfold dist2 dvec
    norm_num
  have hacc : ComputeAcceleration ⟨0, 0, 0⟩ [(⟨1, 0, 0⟩, -1e31)]
      = accelContrib ⟨0, 0, 0⟩ (⟨1, 0, 0⟩, -1e31) := by
    have hnil : gravitySum ⟨0, 0, 0⟩ ([] : List (Vector3d × ℝ)) = 0 := rfl
    unfold ComputeAcceleration
    rw [gravity_foldl]
    unfold gravitySum
    rw [Vector3d.zero_add, hnil, Vector3d.add_zero]
  have hcon : accelContrib ⟨0, 0, 0⟩ (⟨1, 0, 0⟩, -1e31)
      = (-667430000 : ℝ) • dvec ⟨0, 0, 0⟩ ⟨1, 0, 0⟩ := by
    unfold accelContrib
    dsimp only
    rw [hr2, if_neg (by norm_num [minDistSq]), Real.sqrt_one]
    have hF : G * (-1e31) / 1 = -667430000 := by norm_num [G]
    rw [hF, min_eq_left (by norm_num [maxForce])]
    norm_num
  rw [hacc, hcon, vmag_smul]
  have hm1 : vmag (dvec ⟨0, 0, 0⟩ ⟨1, 0, 0⟩) = 1 := by
    unfold vmag dvec
    norm_num
  rw [hm1]
  norm_num [maxForce]

/-- C2 amended: `ComputeAcceleration` is the sum over bodies of per-body
contributions; a body closer than the singularity floor contributes exactly
zero (so a coincident attractor yields a finite result), every other body
contributes `(min(G*mass/r2, maxForce) / r) • displacement`, and for every
NONNEGATIVE body mass that single contribution's magnitude never exceeds
maxForce (for a negative mass the clamp does not bound the magnitude). -/
theorem c2_gravity_amended (pos : Vector3d) (bodies : List (Vector3d × ℝ))
    (b : Vector3d × ℝ) :
    ComputeAcceleration pos bodies = gravitySum pos bodies ∧
    (dist2 pos b.1 < minDistSq → accelContrib pos b = 0) ∧
    (minDistSq ≤ dist2 pos b.1 →
      accelContrib pos b =
        (min (G * b.2 / dist2 pos b.1) maxForce / Real.sqrt (dist2 pos b.1)) • dvec pos b.1 ∧
      (0 ≤ b.2 → vmag (accelContrib pos b) ≤ maxForce)) := by
  refine ⟨?_, ?_, ?_⟩
  · unfold ComputeAcceleration
    rw [gravity_foldl, Vector3d.zero_add]
  · intro h
    unfold accelContrib
    rw [if_pos h]
  · intro h
    have heq : accelContrib pos b =
        (min (G * b.2 / dist2 pos b.1) maxForce / Real.sqrt (dist2 pos b.1)) • dvec pos b.1 := by
      unfold accelContrib
      rw [if_neg (not_lt.mpr h)]
    refine ⟨heq, ?_⟩
    intro hb2
    have hr2pos : 0 < dist2 pos b.1 := lt_of_lt_of_le (by norm_num [minDistSq]) h
    have hrpos : 0 < Real.sqrt (dist2 pos b.1) := Real.sqrt_pos.mpr hr2pos
    have hGpos : (0 : ℝ) < G := by norm_num [G]
    have hF0 : 0 ≤ min (G * b.2 / dist2 pos b.1) maxForce :=
      le_min (div_nonneg (mul_nonneg hGpos.le hb2) hr2pos.le) (by norm_num [maxForce])
    have hmagd : vmag (dvec pos b.1) = Real.sqrt (dist2 pos b.1) := rfl
    rw [heq, vmag_smul, hmagd, abs_of_nonneg (div_nonneg hF0 hrpos.le),
      div_mul_cancel₀ _ (ne_of_gt hrpos)]
    exact min_le_right _ _

/-- Witness for C2 amended: a unit-mass body at unit distance along x. -/
theorem c2_gravity_amended_witness :
    ComputeAcceleration ⟨0, 0, 0⟩ [] = gravitySum ⟨0, 0, 0⟩ [] ∧
    vmag (accelContrib ⟨0, 0, 0⟩ (⟨1, 0, 0⟩, 1)) ≤ maxForce :=
  ⟨(c2_gravity_amended ⟨0, 0, 0⟩ [] (⟨1, 0, 0⟩, 1)).1,
   (((c2_gravity_amended ⟨0, 0, 0⟩ [] (⟨1, 0, 0⟩, 1)).2.2
      (by unfold dist2 dvec; norm_num [minDistSq])).2 (by norm_num))⟩

/-- C7 counterexample: the density sequence of the shipped table is not
non-increasing — the sample at index 24 (240 km, density 0.022) is strictly
below the sample at index 25 (250 km, density 0.187). -/
theorem c7_table_counterexample : jrRho 24 < jrRho 25 := by
  norm_num [jrRho]

/-- C7 amended: the table build (`JRInit`) computes all 50 per-segment scale
heights unconditionally and performs no validation or rejection: every
density sample is strictly positive, the sequence is strictly decreasing on
every segment except the 240→250 km one where it increases, and accordingly
every derived scale height is positive except that segment's, which is
negative (well-defined, but not positive) — no build-time rejection occurs. -/
theorem c7_table_amended :
    (∀ i, i < 51 → 0 < jrRho i) ∧
    (∀ i, i < 50 → i ≠ 24 → jrRho (i + 1) < jrRho i ∧ 0 < jrH i) ∧
    jrRho 24 < jrRho 25 ∧ jrH 24 < 0 :=
  ⟨jrRho_pos,
   fun i h hne => ⟨jrRho_strict_anti_off i h hne, jrH_pos_off i h hne⟩,
   by norm_num [jrRho], jrH_neg_24⟩

/-- Witness for C7 amended at segment 3. -/
theorem c7_table_amended_witness :
    0 < jrRho 3 ∧ (jrRho 4 < jrRho 3 ∧ 0 < jrH 3) :=
  ⟨c7_table_amended.1 3 (by norm_num),
   c7_table_amended.2.1 3 (by norm_num) (by norm_num)⟩

/-- C1: one `DormandPrinceStep` with no gravity sources, zero thrust and zero
cross-sectional area (so every stage acceleration is zero) leaves the
velocity unchanged and moves the position by exactly `dt • vel` — the
real-arithmetic model gives the identity exactly, hence within any
floating-point tolerance — because the 5th-order weights sum to 1. -/
theorem c1_pure_inertial_step (pos vel : Vector3d) (mass dt dragCoeff : ℝ)
    (hm : 1e-6 < mass) :
    DormandPrinceStep pos vel mass dt [] ⟨0, 0, 0⟩ dragCoeff 0 = (pos + dt • vel, vel) := by
  unfold DormandPrinceStep
  rw [if_neg (not_le.mpr hm)]
  rw [dpStages_free mass dt dragCoeff pos vel 7]
  have hrep : List.replicate 7 (vel, (0 : Vector3d))
      = [(vel, 0), (vel, 0), (vel, 0), (vel, 0), (vel, 0), (vel, 0), (vel, 0)] := rfl
  have hrange : List.range 7 = [0, 1, 2, 3, 4, 5, 6] := rfl
  rw [hrep, hrange]
  simp only [List.foldl_cons, List.foldl_nil]
  have hb0 : b_dp 0 = 35 / 384 := rfl
  have hb1 : b_dp 1 = 0 := rfl
  have hb2 : b_dp 2 = 500 / 1113 := rfl
  have hb3 : b_dp 3 = 125 / 192 := rfl
  have hb4 : b_dp 4 = -2187 / 6784 := rfl
  have hb5 : b_dp 5 = 11 / 84 := rfl
  have hb6 : b_dp 6 = 0 := rfl
  rw [hb0, hb1, hb2, hb3, hb4, hb5, hb6]
  ext <;> simp [List.getD] <;> ring

/-- Witness for C1 with mass 1, timestep 2. -/
theorem c1_pure_inertial_step_witness :
    DormandPrinceStep ⟨1, 2, 3⟩ ⟨4, 5, 6⟩ 1 2 [] ⟨0, 0, 0⟩ 0 0
      = (⟨1, 2, 3⟩ + (2 : ℝ) • ⟨4, 5, 6⟩, ⟨4, 5, 6⟩) :=
  c1_pure_inertial_step ⟨1, 2, 3⟩ ⟨4, 5, 6⟩ 1 2 0 (by norm_num)

/-- C8: with positive mass, area and drag coefficient, and with the density
and relative wind speed at or above their negligibility thresholds, the drag
acceleration is a negative scalar multiple of the relative wind vector (it
points exactly opposite to it), and its magnitude is the velocity-independent
coefficient `dragK` times the square of the relative wind speed. -/
theorem c8_drag_law (velUU posRelUU : Vector3d) (mass areaUU Cd : ℝ)
    (hm : 0 < mass) (ha : 0 < areaUU) (hc : 0 < Cd)
    (hrho : 1e-12 ≤ ComputeAtmosphericDensity (dragAlt posRelUU))
    (hspeed : 1e-6 ≤ vmag (vrelOf velUU posRelUU)) :
    ∃ c : ℝ, c < 0 ∧
      ComputeDragAcceleration velUU posRelUU mass areaUU Cd = c • vrelOf velUU posRelUU ∧
      vmag (ComputeDragAcceleration velUU posRelUU mass areaUU Cd) =
        dragK posRelUU mass areaUU Cd * vmag (vrelOf velUU posRelUU) ^ 2 := by
  have hrho0 : (0 : ℝ) < ComputeAtmosphericDensity (dragAlt posRelUU) :=
    lt_of_lt_of_le (by norm_num) hrho
  have hs0 : (0 : ℝ) < vmag (vrelOf velUU posRelUU) := lt_of_lt_of_le (by norm_num) hspeed
  have hU : (0 : ℝ) < UNIT_TO_KM := by norm_num [UNIT_TO_KM]
  have hA2 : 0 < areaUU * UNIT_TO_KM * UNIT_TO_KM := mul_pos (mul_pos ha hU) hU
  have hfactor : -0.5 * Cd * (areaUU * UNIT_TO_KM * UNIT_TO_KM) *
      ComputeAtmosphericDensity (dragAlt posRelUU) / mass < 0 := by
    apply div_neg_of_neg_of_pos _ hm
    have hp := mul_pos (mul_pos hc hA2) hrho0
    nlinarith
  have hc0 : -0.5 * Cd * (areaUU * UNIT_TO_KM * UNIT_TO_KM) *
      ComputeAtmosphericDensity (dragAlt posRelUU) / mass *
      vmag (vrelOf velUU posRelUU) / UNIT_TO_KM < 0 :=
    div_neg_of_neg_of_pos (mul_neg_of_neg_of_pos hfactor hs0) hU
  have heq : ComputeDragAcceleration velUU posRelUU mass areaUU Cd =
      (-0.5 * Cd * (areaUU * UNIT_TO_KM * UNIT_TO_KM) *
        ComputeAtmosphericDensity (dragAlt posRelUU) / mass *
        vmag (vrelOf velUU posRelUU) / UNIT_TO_KM) • vrelOf velUU posRelUU := by
    unfold ComputeDragAcceleration
    rw [if_neg (not_lt.mpr hrho), if_neg (not_lt.mpr hspeed)]
    ext <;> simp <;> ring
  refine ⟨_, hc0, heq, ?_⟩
  rw [heq, vmag_smul, abs_of_neg hc0]
  unfold dragK
  ring

/-- Witness for C8: a unit-mass, unit-area, unit-Cd body at the primary's
origin (sea level, density 1.35e9) moving at unit velocity along x. -/
theorem c8_drag_law_witness :
    1e-12 ≤ ComputeAtmosphericDensity (dragAlt ⟨0, 0, 0⟩) ∧
    1e-6 ≤ vmag (vrelOf ⟨1, 0, 0⟩ ⟨0, 0, 0⟩) ∧
    ∃ c : ℝ, c < 0 ∧
      ComputeDragAcceleration ⟨1, 0, 0⟩ ⟨0, 0, 0⟩ 1 1 1 = c • vrelOf ⟨1, 0, 0⟩ ⟨0, 0, 0⟩ ∧
      vmag (ComputeDragAcceleration ⟨1, 0, 0⟩ ⟨0, 0, 0⟩ 1 1 1) =
        dragK ⟨0, 0, 0⟩ 1 1 1 * vmag (vrelOf ⟨1, 0, 0⟩ ⟨0, 0, 0⟩) ^ 2 := by
  have hd : dragAlt (⟨0, 0, 0⟩ : Vector3d) = 0 := by
    unfold dragAlt
    have hz : ((0 : ℝ) * UNIT_TO_KM) ^ 2 + ((0 : ℝ) * UNIT_TO_KM) ^ 2 +
        ((0 : ℝ) * UNIT_TO_KM) ^ 2 = 0 := by norm_num
    rw [hz, Real.sqrt_zero, max_eq_left (by norm_num [EARTH_RADIUS_KM, UNIT_TO_KM])]
  have hcad : ComputeAtmosphericDensity 0 = jrRho 0 := by
    unfold ComputeAtmosphericDensity
    rw [if_pos (by norm_num [jrAlt])]
  have hrho : 1e-12 ≤ ComputeAtmosphericDensity (dragAlt ⟨0, 0, 0⟩) := by
    rw [hd, hcad]
    norm_num [jrRho]
  have hvrel : vrelOf ⟨1, 0, 0⟩ ⟨0, 0, 0⟩ = ⟨10, 0, 0⟩ := by
    unfold vrelOf
    ext <;> norm_num [UNIT_TO_KM]
  have hvm : vmag (⟨10, 0, 0⟩ : Vector3d) = 10 := by
    unfold vmag
    have h100 : ((10 : ℝ)) ^ 2 + (0 : ℝ) ^ 2 + (0 : ℝ) ^ 2 = 10 ^ 2 := by norm_num
    rw [h100, Real.sqrt_sq (by norm_num : (0 : ℝ) ≤ 10)]
  have hspeed : 1e-6 ≤ vmag (vrelOf ⟨1, 0, 0⟩ ⟨0, 0, 0⟩) := by
    rw [hvrel, hvm]
    norm_num
  exact ⟨hrho, hspeed,
    c8_drag_law ⟨1, 0, 0⟩ ⟨0, 0, 0⟩ 1 1 1 (by norm_num) (by norm_num) (by norm_num) hrho hspeed⟩

/-- C3: whenever the mass is at or below the near-zero threshold 1e-6, both
`DormandPrinceStep` and the entry point `DormandPrinceSingle` are no-ops:
they return with position and velocity exactly unchanged. -/
theorem c3_massless_noop (pos vel : Vector3d) (mass dt : ℝ)
    (bodies : List (Vector3d × ℝ)) (thrustAcc thrustImpulse : Vector3d)
    (dragCoeff areaUU : ℝ) (hm : mass ≤ 1e-6) :
    DormandPrinceStep pos vel mass dt bodies thrustAcc dragCoeff areaUU = (pos, vel) ∧
    DormandPrinceSingle pos vel mass bodies dt thrustImpulse dragCoeff areaUU = (pos, vel) := by
  constructor
  · unfold DormandPrinceStep
    rw [if_pos hm]
  · unfold DormandPrinceSingle
    rw [if_pos hm]

/-- Witness for C3 at the boundary mass 1e-6. -/
theorem c3_massless_noop_witness :
    DormandPrinceStep ⟨1, 2, 3⟩ ⟨4, 5, 6⟩ 1e-6 1 [] ⟨0, 0, 0⟩ 0 0 = (⟨1, 2, 3⟩, ⟨4, 5, 6⟩) ∧
    DormandPrinceSingle ⟨1, 2, 3⟩ ⟨4, 5, 6⟩ 1e-6 [] 1 ⟨0, 0, 0⟩ 0 0 = (⟨1, 2, 3⟩, ⟨4, 5, 6⟩) :=
  c3_massless_noop ⟨1, 2, 3⟩ ⟨4, 5, 6⟩ 1e-6 1 [] ⟨0, 0, 0⟩ ⟨0, 0, 0⟩ 0 0 le_rfl

/-- C6: at or below the first altitude sample the density model returns the
first density sample, and at or above the last altitude sample it returns 0;
outside the table it never extrapolates. -/
theorem c6_density_clamp (altKm : ℝ) :
    (altKm ≤ jrAlt 0 → ComputeAtmosphericDensity altKm = jrRho 0) ∧
    (jrAlt (JR_N - 1) ≤ altKm → ComputeAtmosphericDensity altKm = 0) := by
  constructor
  · intro h
    unfold ComputeAtmosphericDensity
    rw [if_pos h]
  · intro h
    have halt : (500 : ℝ) ≤ altKm := by
      have haltTop : jrAlt (JR_N - 1) = 500 := rfl
      rw [haltTop] at h
      exact h
    have halt0 : jrAlt 0 = 0 := rfl
    unfold ComputeAtmosphericDensity
    rw [if_neg (by rw [halt0]; intro hcon; linarith), if_pos h]

/-- Witness for C6 below the floor and above the ceiling. -/
theorem c6_density_clamp_witness :
    ComputeAtmosphericDensity (-1) = jrRho 0 ∧ ComputeAtmosphericDensity 600 = 0 :=
  ⟨(c6_density_clamp (-1)).1 (by norm_num [jrAlt]),
   (c6_density_clamp 600).2 (by norm_num [jrAlt, JR_N])⟩

/-- C4 counterexample: at the last altitude sample (500 km) the density model
returns 0, not that sample's density value 0.000485, because the vacuum guard
`altKm >= JR_ALT[JR_N-1]` takes precedence over the exact-sample lookup. -/
theorem c4_density_counterexample :
    jrAlt 50 = 500 ∧ jrRho 50 = 0.000485 ∧
    ComputeAtmosphericDensity (jrAlt 50) = 0 ∧
    ComputeAtmosphericDensity (jrAlt 50) ≠ jrRho 50 := by
  have hv : ComputeAtmosphericDensity (jrAlt 50) = 0 := by
    have haltTop : jrAlt (JR_N - 1) = jrAlt 50 := rfl
    unfold ComputeAtmosphericDensity
    rw [if_neg (by norm_num [jrAlt]), if_pos (by rw [haltTop])]
  exact ⟨rfl, rfl, hv, by rw [hv]; norm_num [jrRho]⟩

/-- C4 amended: for every table sample except the last one (indices 0 to 49,
altitudes 0 km to 490 km), the density model returns exactly that sample's
density; at the last sample (500 km) it returns 0 instead. -/
theorem c4_density_amended (i : ℕ) (h : i < 50) :
    ComputeAtmosphericDensity (jrAlt i) = jrRho i := by
  rcases Nat.eq_zero_or_pos i with h0 | hpos
  · subst h0
    unfold ComputeAtmosphericDensity
    rw [if_pos le_rfl]
  · rw [jrAlt_eq i (by omega)]
    exact density_at_sample i hpos (by omega)

/-- Witness for C4 amended at the 300 km sample. -/
theorem c4_density_amended_witness :
    ComputeAtmosphericDensity (jrAlt 30) = jrRho 30 :=
  c4_density_amended 30 (by norm_num)

/-- C5 evaluated at the failing input: the table density at the 240 km sample
is 0.022 but at the 250 km sample it is 0.187, so the density model is not
non-increasing on the table domain — it increases across the 240→250 km
segment.  (The spec's monotonicity property is the clear intent; the shipped
table data is inconsistent across that boundary.) -/
theorem c5_density_monotonicity_bug :
    ComputeAtmosphericDensity 240 < ComputeAtmosphericDensity 250 := by
  have h240 : ComputeAtmosphericDensity 240 = jrRho 24 := by
    have h := density_at_sample 24 (by norm_num) (by norm_num)
    norm_num at h
    exact h
  have h250 : ComputeAtmosphericDensity 250 = jrRho 25 := by
    have h := density_at_sample 25 (by norm_num) (by norm_num)
    norm_num at h
    exact h
  rw [h240, h250]
  norm_num [jrRho]

/-- C9: the embedded Butcher tableau constants satisfy the canonical
Dormand-Prince 5(4) identities exactly: the 5th-order weights sum to 1, each
row of the coefficient table sums to its node value, and row 6 equals the
first six weights (FSAL). -/
theorem c9_butcher_tableau :
    (b_dp 0 + b_dp 1 + b_dp 2 + b_dp 3 + b_dp 4 + b_dp 5 + b_dp 6 = 1) ∧
    (∀ i, i < 7 → a_dp i 0 + a_dp i 1 + a_dp i 2 + a_dp i 3 + a_dp i 4 + a_dp i 5 = c_dp i) ∧
    (∀ j, j < 6 → a_dp 6 j = b_dp j) := by
  refine ⟨by norm_num [b_dp], ?_, ?_⟩
  · intro i h
    interval_cases i <;> norm_num [a_dp, c_dp]
  · intro j h
    interval_cases j <;> rfl

/-- Witness for C9 at row 4 and FSAL entry 4. -/
theorem c9_butcher_tableau_witness :
    (a_dp 4 0 + a_dp 4 1 + a_dp 4 2 + a_dp 4 3 + a_dp 4 4 + a_dp 4 5 = c_dp 4) ∧
    a_dp 6 4 = b_dp 4 :=
  ⟨c9_butcher_tableau.2.1 4 (by norm_num), c9_butcher_tableau.2.2 4 (by norm_num)⟩

/-- C10: in the total embedding the unguarded `bodies[0]` read of the source
forces a guard: with the mass above the no-op threshold the checked step is
well-defined exactly when the body list is non-empty (for every thrust, drag
and area configuration, including zero gravity sources), and it agrees with
the unchecked step on every non-empty body list. -/
theorem c10_bodies_nonempty_precondition (pos vel : Vector3d) (mass dt : ℝ)
    (bodies : List (Vector3d × ℝ)) (thrustAcc : Vector3d) (dragCoeff areaUU : ℝ) :
    (1e-6 < mass → bodies = [] →
      DormandPrinceStepChecked pos vel mass dt bodies thrustAcc dragCoeff areaUU = none) ∧
    (bodies ≠ [] →
      DormandPrinceStepChecked pos vel mass dt bodies thrustAcc dragCoeff areaUU =
        some (DormandPrinceStep pos vel mass dt bodies thrustAcc dragCoeff areaUU)) ∧
    (mass ≤ 1e-6 →
      DormandPrinceStepChecked pos vel mass dt bodies thrustAcc dragCoeff areaUU =
        some (pos, vel)) := by
  refine ⟨?_, ?_, ?_⟩
  · intro hm hb
    subst hb
    unfold DormandPrinceStepChecked
    rw [if_neg (not_le.mpr hm)]
  · intro hb
    match bodies with
    | [] => exact absurd rfl hb
    | b :: bs =>
      unfold DormandPrinceStepChecked
      by_cases hm : mass ≤ 1e-6
      · rw [if_pos hm]
        have : DormandPrinceStep pos vel mass dt (b :: bs) thrustAcc dragCoeff areaUU
            = (pos, vel) := by
          unfold DormandPrinceStep
          rw [if_pos hm]
        rw [this]
      · rw [if_neg hm]
  · intro hm
    unfold DormandPrinceStepChecked
    rw [if_pos hm]

/-- Witness for C10: with unit mass and an empty body list the checked step
has no defined result. -/
theorem c10_bodies_nonempty_precondition_witness :
    DormandPrinceStepChecked ⟨0, 0, 0⟩ ⟨0, 0, 0⟩ 1 1 [] ⟨0, 0, 0⟩ 0 0 = none :=
  (c10_bodies_nonempty_precondition ⟨0, 0, 0⟩ ⟨0, 0, 0⟩ 1 1 [] ⟨0, 0, 0⟩ 0 0).1
    (by norm_num) rfl

end
